import Mathlib

/-!
Verification of the github-mcp tool-dispatch core (src/index.ts) against its
natural-language specification.

The embedding models the `CallToolRequestSchema` handler and the resource
handlers of `src/index.ts` as pure Lean functions.  Upstream HTTP traffic is
modelled by an oracle `UpstreamCall → CallOutcome`; each handler returns the
outcome it reports to the transport together with the ordered list of upstream
calls it performed.  JavaScript values flowing through the handler (axios
response bodies, request bodies) are modelled by a small JSON value type that
includes JavaScript's `undefined`.
-/

namespace GithubMcp

mutual
/-- JSON-ish JavaScript values.  `undefined` models JavaScript `undefined`, which
can appear as an object property value (e.g. `description: args.description`
with the argument absent) and is dropped by JSON serialization. -/
inductive Json where
  | null : Json
  | undefined : Json
  | bool : Bool → Json
  | num : Int → Json
  | str : String → Json
  | arr : JsonList → Json
  | obj : JsonFields → Json
deriving DecidableEq

inductive JsonList where
  | nil : JsonList
  | cons : Json → JsonList → JsonList
deriving DecidableEq

inductive JsonFields where
  | nil : JsonFields
  | cons : String → Json → JsonFields → JsonFields
deriving DecidableEq
end

/-- First field with the given key, if any. -/
def JsonFields.find : JsonFields → String → Option Json
  | .nil, _ => none
  | .cons k v rest, key => if k = key then some v else rest.find key

/-- JavaScript property access `j.k` on a parsed JSON value: `undefined` when
the key is absent or the value is not an object. -/
def Json.getField (j : Json) (k : String) : Json :=
  match j with
  | .obj fs => (fs.find k).getD .undefined
  | _ => .undefined

/-- Whether an object value carries the given key at all. -/
def Json.hasField (j : Json) (k : String) : Bool :=
  match j with
  | .obj fs => (fs.find k).isSome
  | _ => false

/-- JavaScript `x ?? y` / `x == null` test: only `null` and `undefined` are
nullish. -/
def jsNullish : Json → Bool
  | .null => true
  | .undefined => true
  | _ => false

mutual
/-- How a JavaScript value renders inside a template literal (`String(v)`).
Arrays render as their comma-joined elements with `null`/`undefined` elements
rendering empty, plain objects as "[object Object]". -/
def jsToString : Json → String
  | .null => "null"
  | .undefined => "undefined"
  | .bool b => if b then "true" else "false"
  | .num n => toString n
  | .str s => s
  | .arr xs => jsListToString xs
  | .obj _ => "[object Object]"

def jsListToString : JsonList → String
  | .nil => ""
  | .cons Json.null .nil => ""
  | .cons Json.undefined .nil => ""
  | .cons x .nil => jsToString x
  | .cons Json.null (.cons y r) => "," ++ jsListToString (.cons y r)
  | .cons Json.undefined (.cons y r) => "," ++ jsListToString (.cons y r)
  | .cons x (.cons y r) => jsToString x ++ "," ++ jsListToString (.cons y r)
end

mutual
/-- The value actually transmitted by `JSON.stringify` serialization of a
request body: object properties whose value is `undefined` are dropped
(so `sha: undefined` yields a body with no `sha` field), and `undefined`
array elements become `null`. -/
def jsonXmit : Json → Json
  | .obj fs => .obj (jsonXmitFields fs)
  | .arr xs => .arr (jsonXmitList xs)
  | j => j

def jsonXmitFields : JsonFields → JsonFields
  | .nil => .nil
  | .cons _ Json.undefined rest => jsonXmitFields rest
  | .cons k v rest => .cons k (jsonXmit v) (jsonXmitFields rest)

def jsonXmitList : JsonList → JsonList
  | .nil => .nil
  | .cons Json.undefined rest => .cons Json.null (jsonXmitList rest)
  | .cons v rest => .cons (jsonXmit v) (jsonXmitList rest)
end

/-- JSON string escaping used by `JSON.stringify` (common escapes; other
control characters do not occur in the bodies this server handles). -/
def jsonEscapeChar (c : Char) : String :=
  if c = '"' then "\\\""
  else if c = '\\' then "\\\\"
  else if c = '\n' then "\\n"
  else if c = '\r' then "\\r"
  else if c = '\t' then "\\t"
  else String.mk [c]

def jsonQuote (s : String) : String :=
  "\"" ++ String.join (s.toList.map jsonEscapeChar) ++ "\""

def spaces (n : Nat) : String := String.mk (List.replicate n ' ')

mutual
/-- Pretty printer modelling `JSON.stringify(v, null, 2)`.  Returns `none` on
`undefined` (JavaScript returns the value `undefined` there); object fields
with `undefined` values are skipped, `undefined` array elements print as
`null`.  `ind` is the indentation of the enclosing line. -/
def ppJson (ind : Nat) : Json → Option String
  | .null => some "null"
  | .undefined => none
  | .bool b => some (if b then "true" else "false")
  | .num n => some (toString n)
  | .str s => some (jsonQuote s)
  | .arr xs =>
    some (match ppArrItems (ind + 2) xs with
      | [] => "[]"
      | items =>
        "[\n" ++ String.intercalate ",\n" (items.map (fun s => spaces (ind + 2) ++ s))
          ++ "\n" ++ spaces ind ++ "]")
  | .obj fs =>
    some (match ppObjItems (ind + 2) fs with
      | [] => "\x7b\x7d"
      | items =>
        "\x7b\n" ++ String.intercalate ",\n" (items.map (fun s => spaces (ind + 2) ++ s))
          ++ "\n" ++ spaces ind ++ "\x7d")

def ppArrItems (ind : Nat) : JsonList → List String
  | .nil => []
  | .cons x rest => ((ppJson ind x).getD "null") :: ppArrItems ind rest

def ppObjItems (ind : Nat) : JsonFields → List String
  | .nil => []
  | .cons k v rest =>
    match ppJson ind v with
    | none => ppObjItems ind rest
    | some sv => (jsonQuote k ++ ": " ++ sv) :: ppObjItems ind rest
end

/-- `JSON.stringify(v, null, 2)` as used on axios response bodies (totalised
with the string "undefined" on the unreachable `undefined` input). -/
def stringifyPretty (j : Json) : String := (ppJson 0 j).getD "undefined"

/-!
Model of `Buffer.from(content).toString('base64')`: UTF-8 encoding of the
JavaScript string followed by standard base64, plus a base64 decoder used to
state the round-trip law.
-/

/-- UTF-8 encoding of a single code point. -/
def utf8EncodeChar (c : Char) : List Nat :=
  let n := c.toNat
  if n < 128 then [n]
  else if n < 2048 then [192 + n / 64, 128 + n % 64]
  else if n < 65536 then [224 + n / 4096, 128 + n / 64 % 64, 128 + n % 64]
  else [240 + n / 262144, 128 + n / 4096 % 64, 128 + n / 64 % 64, 128 + n % 64]

/-- The byte sequence `Buffer.from(s)` (UTF-8). -/
def utf8Bytes (s : String) : List Nat := (s.toList.map utf8EncodeChar).flatten

/-- The base64 alphabet, index 0 to 63. -/
def b64Alphabet : List Char :=
  "ABCDEFGHIJKLMNOPQRSTUVWXYZabcdefghijklmnopqrstuvwxyz0123456789+/".toList

def b64Char (n : Nat) : Char := b64Alphabet.getD n '='

def b64ValAux : List Char → Nat → Char → Option Nat
  | [], _, _ => none
  | x :: xs, i, c => if x = c then some i else b64ValAux xs (i + 1) c

/-- Index of a character in the base64 alphabet. -/
def b64Val (c : Char) : Option Nat := b64ValAux b64Alphabet 0 c

/-- Base64 encoding of a byte sequence, three bytes to four characters with
`=` padding. -/
def base64EncodeBytes : List Nat → List Char
  | [] => []
  | [a] => [b64Char (a / 4), b64Char (a % 4 * 16), '=', '=']
  | [a, b] => [b64Char (a / 4), b64Char (a % 4 * 16 + b / 16), b64Char (b % 16 * 4), '=']
  | a :: b :: c :: rest =>
    b64Char (a / 4) :: b64Char (a % 4 * 16 + b / 16) :: b64Char (b % 16 * 4 + c / 64)
      :: b64Char (c % 64) :: base64EncodeBytes rest

def base64Encode (bs : List Nat) : String := String.mk (base64EncodeBytes bs)

/-- Base64 decoding, four characters to three bytes, honouring `=` padding. -/
def base64DecodeChars : List Char → Option (List Nat)
  | [] => some []
  | c1 :: c2 :: c3 :: c4 :: rest =>
    if c4 = '=' then
      match rest with
      | _ :: _ => none
      | [] =>
        if c3 = '=' then
          match b64Val c1, b64Val c2 with
          | some v1, some v2 => some [v1 * 4 + v2 / 16]
          | _, _ => none
        else
          match b64Val c1, b64Val c2, b64Val c3 with
          | some v1, some v2, some v3 => some [v1 * 4 + v2 / 16, v2 % 16 * 16 + v3 / 4]
          | _, _, _ => none
    else
      match b64Val c1, b64Val c2, b64Val c3, b64Val c4, base64DecodeChars rest with
      | some v1, some v2, some v3, some v4, some t =>
        some ((v1 * 4 + v2 / 16) :: (v2 % 16 * 16 + v3 / 4) :: (v3 % 4 * 64 + v4) :: t)
      | _, _, _, _, _ => none
  | _ => none

def base64Decode (s : String) : Option (List Nat) := base64DecodeChars s.toList

/-- Every byte produced by the UTF-8 encoder is below 256. -/
theorem utf8EncodeChar_lt (c : Char) : ∀ x ∈ utf8EncodeChar c, x < 256 := by
  have hv : c.toNat < 1114112 := by
    rcases c.valid with h | ⟨_, h2⟩
    · exact Nat.lt_trans h (by norm_num)
    · exact h2
  intro x hx
  simp only [utf8EncodeChar] at hx
  repeat' split at hx
  all_goals simp only [List.mem_cons, List.not_mem_nil, or_false] at hx
  all_goals omega

theorem utf8Bytes_lt (s : String) : ∀ x ∈ utf8Bytes s, x < 256 := by
  intro x hx
  simp only [utf8Bytes, List.mem_flatten, List.mem_map] at hx
  obtain ⟨l, ⟨c, _, rfl⟩, hxl⟩ := hx
  exact utf8EncodeChar_lt c x hxl

theorem b64Val_b64Char : ∀ n, n < 64 → b64Val (b64Char n) = some n := by decide

theorem b64Char_ne_pad : ∀ n, n < 64 → b64Char n ≠ '=' := by decide

/-- Decoding inverts encoding on genuine byte sequences. -/
theorem base64_decode_encode :
    ∀ bs : List Nat, (∀ x ∈ bs, x < 256) →
      base64DecodeChars (base64EncodeBytes bs) = some bs
  | [], _ => rfl
  | [a], h => by
    have ha : a < 256 := h a (by simp)
    have h1 : a / 4 < 64 := by omega
    have h2 : a % 4 * 16 < 64 := by omega
    simp only [base64EncodeBytes, base64DecodeChars, if_pos rfl,
      b64Val_b64Char _ h1, b64Val_b64Char _ h2]
    simp only [if_true]
    try simp only [Option.some.injEq, List.cons.injEq, and_true]
    omega
  | [a, b], h => by
    have ha : a < 256 := h a (by simp)
    have hb : b < 256 := h b (by simp)
    have h1 : a / 4 < 64 := by omega
    have h2 : a % 4 * 16 + b / 16 < 64 := by omega
    have h3 : b % 16 * 4 < 64 := by omega
    simp only [base64EncodeBytes, base64DecodeChars, if_pos rfl,
      if_neg (b64Char_ne_pad _ h3),
      b64Val_b64Char _ h1, b64Val_b64Char _ h2, b64Val_b64Char _ h3]
    simp only [if_true]
    try simp only [Option.some.injEq, List.cons.injEq, and_true]
    omega
  | a :: b :: c :: rest, h => by
    have ha : a < 256 := h a (by simp)
    have hb : b < 256 := h b (by simp)
    have hc : c < 256 := h c (by simp)
    have ih := base64_decode_encode rest (fun x hx => h x (by simp [hx]))
    have h1 : a / 4 < 64 := by omega
    have h2 : a % 4 * 16 + b / 16 < 64 := by omega
    have h3 : b % 16 * 4 + c / 64 < 64 := by omega
    have h4 : c % 64 < 64 := by omega
    simp only [base64EncodeBytes, base64DecodeChars,
      if_neg (b64Char_ne_pad _ h4),
      b64Val_b64Char _ h1, b64Val_b64Char _ h2, b64Val_b64Char _ h3, b64Val_b64Char _ h4,
      ih]
    try simp only [Option.some.injEq, List.cons.injEq, and_true]
    omega

/-- Round trip at the string level. -/
theorem base64_roundtrip (s : String) :
    base64Decode (base64Encode (utf8Bytes s)) = some (utf8Bytes s) :=
  base64_decode_encode (utf8Bytes s) (utf8Bytes_lt s)

/-!
Data model of the dispatcher: the argument record, upstream calls and their
outcomes, the response envelope, and the protocol error codes in use.
-/

/-- The `GithubToolArguments` interface: every field optional at the
boundary. -/
structure GithubToolArguments where
  username : Option String := none
  repo_name : Option String := none
  description : Option String := none
  «private» : Option Bool := none
  file_path : Option String := none
  content : Option String := none
  message : Option String := none
deriving DecidableEq

/-- JavaScript truthiness test `!x` on an optional string argument: missing
and empty strings are falsy. -/
def jsFalsyStr : Option String → Bool
  | none => true
  | some s => s == ""

/-- The HTTP verbs the `axiosInstance` wrapper is used with. -/
inductive Verb where
  | get
  | post
  | put
deriving DecidableEq

/-- One upstream HTTP request: verb, relative path, and request body (none
for GET). -/
structure UpstreamCall where
  verb : Verb
  path : String
  body : Option Json := none
deriving DecidableEq

/-- The observable part of an axios error: the HTTP status (absent for
transport-level failures), `error.response?.data`, and `error.message`. -/
structure AxiosError where
  status : Option Nat := none
  respData : Option Json := none
  message : String
deriving DecidableEq

/-- Outcome of one upstream call: a parsed success body, an axios error
(caught by `axios.isAxiosError`), or a non-axios exception. -/
inductive CallOutcome where
  | ok (body : Json)
  | axiosErr (e : AxiosError)
  | thrown (msg : String)
deriving DecidableEq

/-- One `{type: "text", text: ...}` item of a tool response. -/
structure ContentItem where
  type : String
  text : String
deriving DecidableEq

/-- The response envelope returned to the transport.  The success branches of
the code return an object with no `isError` property at all (modelled as
`none`); the in-band error branches set `isError: true`. -/
structure ResponseEnvelope where
  content : List ContentItem
  isError : Option Bool := none
deriving DecidableEq

/-- How the `isError` flag reads under JavaScript truthiness: an absent flag
counts as false. -/
def ResponseEnvelope.isErrorFlag (env : ResponseEnvelope) : Bool :=
  env.isError.getD false

/-- The protocol error codes used by the server (`McpError` codes). -/
inductive ErrorCode where
  | invalidRequest
  | invalidParams
  | methodNotFound
deriving DecidableEq

/-- What one `CallToolRequestSchema` invocation produces: a normal response
envelope, a thrown `McpError` (protocol-level error), or a rethrown
non-axios exception. -/
inductive HandlerOutcome where
  | envelope (env : ResponseEnvelope)
  | protocolError (code : ErrorCode) (message : String)
  | exn (msg : String)
deriving DecidableEq

/-!
Shared outcome shaping.  Each tool handler has the same `try`/`catch`
structure: a successful upstream response is pretty printed, an axios error
becomes an in-band `isError: true` envelope with text built from
`error.response?.data.message ?? error.message`, and anything else is
rethrown.
-/

/-- Model of `error.response?.data.message ?? error.message` followed by
template-literal rendering. -/
def axiosErrMessage (e : AxiosError) : String :=
  let m := match e.respData with
    | some d => d.getField "message"
    | none => Json.undefined
  if jsNullish m then e.message else jsToString m

/-- The success return `{content: [{type: 'text', text: JSON.stringify(data,
null, 2)}]}`. -/
def successEnvelope (body : Json) : HandlerOutcome :=
  .envelope ⟨[⟨"text", stringifyPretty body⟩], none⟩

/-- The axios-error return `{content: [{type: 'text', text: "GitHub API
error: ..."}], isError: true}`. -/
def githubErrorEnvelope (e : AxiosError) : HandlerOutcome :=
  .envelope ⟨[⟨"text", "GitHub API error: " ++ axiosErrMessage e⟩], some true⟩

/-- The `try`/`catch` wrapper each handler puts around its final upstream
call: success is returned, `axios.isAxiosError` errors become in-band
envelopes, and every other exception is rethrown. -/
def outcomeOfCall : CallOutcome → HandlerOutcome
  | .ok body => successEnvelope body
  | .axiosErr e => githubErrorEnvelope e
  | .thrown m => .exn m

/-!
The three tool handlers of the `CallToolRequestSchema` dispatcher
(src/index.ts lines 163 to 303), each returning its outcome together with
the ordered list of upstream calls it performed.
-/

/-- The request `GET /users/{username}`. -/
def getUserCall (username : String) : UpstreamCall :=
  ⟨.get, "/users/" ++ username, none⟩

/-- The `get_user` branch. -/
def getUserHandler (upstream : UpstreamCall → CallOutcome) (args : GithubToolArguments) :
    HandlerOutcome × List UpstreamCall :=
  if jsFalsyStr args.username then
    (.protocolError .invalidParams "Username is required", [])
  else
    (outcomeOfCall (upstream (getUserCall (args.username.getD ""))),
     [getUserCall (args.username.getD "")])

/-- The POST body `{name, description: args.description, private:
args.private ?? false}`; a missing description is sent as the property value
`undefined`. -/
def createRepoBody (args : GithubToolArguments) : Json :=
  .obj (.cons "name" (.str (args.repo_name.getD ""))
    (.cons "description" (match args.description with
      | some d => .str d
      | none => .undefined)
    (.cons "private" (.bool (args.«private».getD false)) .nil)))

/-- The request `POST /user/repos`. -/
def createRepoCall (args : GithubToolArguments) : UpstreamCall :=
  ⟨.post, "/user/repos", some (createRepoBody args)⟩

/-- The `create_repo` branch. -/
def createRepoHandler (upstream : UpstreamCall → CallOutcome) (args : GithubToolArguments) :
    HandlerOutcome × List UpstreamCall :=
  if jsFalsyStr args.repo_name then
    (.protocolError .invalidParams "Repository name is required", [])
  else
    (outcomeOfCall (upstream (createRepoCall args)), [createRepoCall args])

/-- The request `GET /user` fetching the authenticated identity. -/
def userIdentityCall : UpstreamCall := ⟨.get, "/user", none⟩

/-- The path `/repos/{username}/{repo_name}/contents/{file_path}` as rendered
by the template literal. -/
def contentsPath (username repo_name file_path : String) : String :=
  "/repos/" ++ username ++ "/" ++ repo_name ++ "/contents/" ++ file_path

/-- The existing-file lookup `GET /repos/{owner}/{repo}/contents/{path}`. -/
def fileLookupCall (username repo_name file_path : String) : UpstreamCall :=
  ⟨.get, contentsPath username repo_name file_path, none⟩

/-- The write `PUT /repos/{owner}/{repo}/contents/{path}` with the given
body. -/
def filePutCall (username repo_name file_path : String) (body : Json) : UpstreamCall :=
  ⟨.put, contentsPath username repo_name file_path, some body⟩

/-- The value of `userResponse.data.login` as rendered into the request
paths. -/
def loginStr (userBody : Json) : String := jsToString (userBody.getField "login")

/-- Model of the inner `try { sha = fileResponse.data.sha } catch (error) {
/o File doesn't exist, which is fine o/ }`: the bare catch turns every
failure of the lookup, axios error or not, into an absent sha. -/
def shaOf : CallOutcome → Json
  | .ok fileBody => fileBody.getField "sha"
  | _ => Json.undefined

/-- The PUT body `{message: args.message ?? 'Update via GitHub MCP', content:
Buffer.from(content).toString('base64'), sha: sha}`. -/
def pushPutBody (message : Option String) (content : String) (sha : Json) : Json :=
  .obj (.cons "message" (.str (message.getD "Update via GitHub MCP"))
    (.cons "content" (.str (base64Encode (utf8Bytes content)))
    (.cons "sha" sha .nil)))

/-- The `push_to_repo` branch: validation, identity GET, swallowed
existing-file lookup, then the PUT. -/
def pushToRepoHandler (upstream : UpstreamCall → CallOutcome) (args : GithubToolArguments) :
    HandlerOutcome × List UpstreamCall :=
  if jsFalsyStr args.repo_name || jsFalsyStr args.file_path || jsFalsyStr args.content then
    (.protocolError .invalidParams "Repository name, file path, and content are required", [])
  else
    match upstream userIdentityCall with
    | .ok userBody =>
      let username := loginStr userBody
      let repo_name := args.repo_name.getD ""
      let file_path := args.file_path.getD ""
      let content := args.content.getD ""
      let fileCall := fileLookupCall username repo_name file_path
      let sha := shaOf (upstream fileCall)
      let putCall := filePutCall username repo_name file_path (pushPutBody args.message content sha)
      (outcomeOfCall (upstream putCall), [userIdentityCall, fileCall, putCall])
    | out => (outcomeOfCall out, [userIdentityCall])

/-- The full `CallToolRequestSchema` dispatcher: three known tool names in
order, else a thrown `McpError(MethodNotFound, ...)`. -/
def callTool (upstream : UpstreamCall → CallOutcome) (name : String)
    (args : GithubToolArguments) : HandlerOutcome × List UpstreamCall :=
  if name = "get_user" then getUserHandler upstream args
  else if name = "create_repo" then createRepoHandler upstream args
  else if name = "push_to_repo" then pushToRepoHandler upstream args
  else (.protocolError .methodNotFound ("Unknown tool: " ++ name), [])

/-!
Resource handlers (`setupResourceHandlers`, src/index.ts lines 70 to 91).
-/

/-- The `ListResourcesRequestSchema` handler returns `{resources: []}`. -/
def listResourcesHandler : List Json := []

/-- The `ListResourceTemplatesRequestSchema` handler returns
`{resourceTemplates: []}`. -/
def listResourceTemplatesHandler : List Json := []

/-- Outcome of a read-resource request. -/
inductive ReadResourceOutcome where
  | contents (items : List Json)
  | protocolError (code : ErrorCode) (message : String)
deriving DecidableEq

/-- The `ReadResourceRequestSchema` handler always throws
`McpError(InvalidRequest, ...)`. -/
def readResourceHandler (uri : String) : ReadResourceOutcome :=
  .protocolError .invalidRequest ("Invalid URI format: " ++ uri)

/-!
Schema Registry data used by the validation claims: the declared required
fields of each tool, in declaration order, and the names under which the
error messages refer to them.
-/

def getUserRequired : List String := ["username"]

def createRepoRequired : List String := ["repo_name"]

def pushToRepoRequired : List String := ["repo_name", "file_path", "content"]

/-- The raw argument value carried under a declared field key. -/
def fieldValue (args : GithubToolArguments) : String → Option String
  | "username" => args.username
  | "repo_name" => args.repo_name
  | "file_path" => args.file_path
  | "content" => args.content
  | _ => none

/-- First declared required field that is missing or empty, in declaration
order. -/
def firstMissing (args : GithubToolArguments) : List String → Option String
  | [] => none
  | f :: rest => if jsFalsyStr (fieldValue args f) then some f else firstMissing args rest

/-- How each field is named inside the human-readable validation errors. -/
def displayName : String → String
  | "username" => "Username"
  | "repo_name" => "Repository name"
  | "file_path" => "file path"
  | "content" => "content"
  | f => f

/-!
Concrete fixtures used by counterexamples and witnesses: argument records and
upstream oracles describing specific server-side situations.
-/

/-- A fully populated `push_to_repo` argument record. -/
def mkPushArgs (r f c : String) (msg : Option String) : GithubToolArguments :=
  { repo_name := some r, file_path := some f, content := some c, message := msg }

/-- An authenticated-identity body whose login is "me". -/
def userBodyMe : Json := .obj (.cons "login" (.str "me") .nil)

/-- An existing-file body whose content hash is "abc123". -/
def fileBodyAbc : Json := .obj (.cons "sha" (.str "abc123") .nil)

/-- A 404 axios error whose response body is `{"message": "Not Found"}`. -/
def notFoundErr : AxiosError :=
  { status := some 404,
    respData := some (.obj (.cons "message" (.str "Not Found") .nil)),
    message := "Request failed with status code 404" }

/-- An upstream where every call succeeds with a `null` body. -/
def oracleAllNull : UpstreamCall → CallOutcome := fun _ => .ok Json.null

/-- An upstream where the identity GET succeeds and any other GET (in
particular the existing-file lookup) raises a non-axios exception. -/
def oracleThrowOnFileGet : UpstreamCall → CallOutcome := fun call =>
  match call.verb with
  | .get => if call.path = "/user" then .ok userBodyMe else .thrown "boom"
  | _ => .ok Json.null

/-- An upstream where the identity GET succeeds, any other GET returns 404
Not Found, and writes succeed: the "no existing file" situation. -/
def oracle404 : UpstreamCall → CallOutcome := fun call =>
  match call.verb with
  | .get => if call.path = "/user" then .ok userBodyMe else .axiosErr notFoundErr
  | _ => .ok Json.null

/-- An upstream where the identity GET succeeds, the existing-file lookup
finds hash "abc123", and writes succeed. -/
def oracleFileExists : UpstreamCall → CallOutcome := fun call =>
  match call.verb with
  | .get => if call.path = "/user" then .ok userBodyMe else .ok fileBodyAbc
  | _ => .ok Json.null

/-- C1 counterexample: with valid push arguments, the identity GET
succeeding, and the existing-file lookup raising a NON-axios exception
("boom"), the lookup call is performed (second in the trace) and throws, yet
the handler neither propagates the exception nor errors: it returns the
normal success envelope of the PUT.  The bare inner `catch` of the
existing-file lookup swallows non-upstream exceptions too, so the claim as
stated is false. -/
theorem push_lookup_exception_swallowed_cex :
    oracleThrowOnFileGet (fileLookupCall "me" "r" "f") = CallOutcome.thrown "boom"
    ∧ (pushToRepoHandler oracleThrowOnFileGet (mkPushArgs "r" "f" "c" none)).snd
        = [userIdentityCall, fileLookupCall "me" "r" "f",
           filePutCall "me" "r" "f" (pushPutBody none "c" Json.undefined)]
    ∧ (pushToRepoHandler oracleThrowOnFileGet (mkPushArgs "r" "f" "c" none)).fst
        = successEnvelope Json.null :=
  ⟨rfl, rfl, rfl⟩

/-- C1 (amended): for every push_to_repo invocation with valid arguments, a
non-upstream exception raised by the identity GET or by the PUT propagates to
the caller unchanged (a protocol-level failure, not an isError envelope);
but a non-upstream exception raised during the existing-file lookup of step b
is silently swallowed and the push proceeds with no sha, reflecting only the
PUT outcome. -/
theorem push_exception_propagation_amended (upstream : UpstreamCall → CallOutcome)
    (r f c : String) (msg : Option String) (m : String)
    (hr : r ≠ "") (hf : f ≠ "") (hc : c ≠ "") :
    (upstream userIdentityCall = .thrown m →
      pushToRepoHandler upstream (mkPushArgs r f c msg)
        = (.exn m, [userIdentityCall]))
    ∧ (∀ userBody, upstream userIdentityCall = .ok userBody →
        upstream (filePutCall (loginStr userBody) r f
          (pushPutBody msg c
            (shaOf (upstream (fileLookupCall (loginStr userBody) r f))))) = .thrown m →
        (pushToRepoHandler upstream (mkPushArgs r f c msg)).fst = .exn m)
    ∧ (∀ userBody, upstream userIdentityCall = .ok userBody →
        upstream (fileLookupCall (loginStr userBody) r f) = .thrown m →
        (pushToRepoHandler upstream (mkPushArgs r f c msg)).fst
          = outcomeOfCall (upstream
              (filePutCall (loginStr userBody) r f (pushPutBody msg c Json.undefined)))) := by
  refine ⟨?_, ?_, ?_⟩
  · intro h1
    simp [pushToRepoHandler, mkPushArgs, jsFalsyStr, hr, hf, hc, h1, outcomeOfCall]
  · intro userBody h1 h2
    simp [pushToRepoHandler, mkPushArgs, jsFalsyStr, hr, hf, hc, h1, h2, outcomeOfCall]
  · intro userBody h1 h2
    simp [pushToRepoHandler, mkPushArgs, jsFalsyStr, hr, hf, hc, h1, h2, shaOf]

/-- C1 witness: the amended theorem applied to the concrete throwing oracle:
the lookup exception is swallowed and the result is the PUT's outcome. -/
theorem push_exception_propagation_amended_witness :
    (pushToRepoHandler oracleThrowOnFileGet (mkPushArgs "r" "f" "c" none)).fst
      = outcomeOfCall (oracleThrowOnFileGet
          (filePutCall (loginStr userBodyMe) "r" "f" (pushPutBody none "c" Json.undefined))) :=
  (push_exception_propagation_amended oracleThrowOnFileGet "r" "f" "c" none "boom"
    (by decide) (by decide) (by decide)).2.2 userBodyMe rfl rfl

/-- C2 counterexample: with valid push arguments and a target path holding no
existing file (the lookup returns 404 Not Found), the handler performs THREE
upstream calls, not two: the identity GET, the failing contents GET, and the
PUT.  The claim's "exactly two upstream HTTP calls" is false on the code. -/
theorem push_no_existing_file_call_count_cex :
    oracle404 (fileLookupCall "me" "r" "f") = CallOutcome.axiosErr notFoundErr
    ∧ (pushToRepoHandler oracle404 (mkPushArgs "r" "f" "c" none)).snd
        = [userIdentityCall, fileLookupCall "me" "r" "f",
           filePutCall "me" "r" "f" (pushPutBody none "c" Json.undefined)]
    ∧ (pushToRepoHandler oracle404 (mkPushArgs "r" "f" "c" none)).snd.length = 3 :=
  ⟨rfl, rfl, rfl⟩

/-- C2 (amended): for every push_to_repo invocation with valid arguments
whose target path has no existing file (the lookup fails upstream), exactly
three upstream calls are made in order — the identity GET, the contents GET
whose failure is swallowed, and the PUT — the transmitted PUT body has no sha
field (its `sha: undefined` property is dropped by serialization), and the
returned result reflects only the PUT outcome. -/
theorem push_no_existing_file_amended (upstream : UpstreamCall → CallOutcome)
    (r f c : String) (msg : Option String) (e : AxiosError) (userBody : Json)
    (hr : r ≠ "") (hf : f ≠ "") (hc : c ≠ "")
    (h1 : upstream userIdentityCall = .ok userBody)
    (h2 : upstream (fileLookupCall (loginStr userBody) r f) = .axiosErr e) :
    pushToRepoHandler upstream (mkPushArgs r f c msg)
      = (outcomeOfCall (upstream
            (filePutCall (loginStr userBody) r f (pushPutBody msg c Json.undefined))),
         [userIdentityCall, fileLookupCall (loginStr userBody) r f,
          filePutCall (loginStr userBody) r f (pushPutBody msg c Json.undefined)])
    ∧ Json.hasField (jsonXmit (pushPutBody msg c Json.undefined)) "sha" = false := by
  constructor
  · simp [pushToRepoHandler, mkPushArgs, jsFalsyStr, hr, hf, hc, h1, h2, shaOf]
  · simp [pushPutBody, jsonXmit, jsonXmitFields, Json.hasField, JsonFields.find]

/-- C2 witness: the amended theorem applied to the concrete 404 oracle. -/
theorem push_no_existing_file_amended_witness :
    pushToRepoHandler oracle404 (mkPushArgs "r" "f" "c" none)
      = (outcomeOfCall (oracle404
            (filePutCall (loginStr userBodyMe) "r" "f" (pushPutBody none "c" Json.undefined))),
         [userIdentityCall, fileLookupCall (loginStr userBodyMe) "r" "f",
          filePutCall (loginStr userBodyMe) "r" "f" (pushPutBody none "c" Json.undefined)])
    ∧ Json.hasField (jsonXmit (pushPutBody none "c" Json.undefined)) "sha" = false :=
  push_no_existing_file_amended oracle404 "r" "f" "c" none notFoundErr userBodyMe
    (by decide) (by decide) (by decide) rfl rfl

/-- C3: for every tool, whenever some declared required field is omitted or
empty, the dispatcher raises a protocol-level InvalidParams error with an
empty upstream trace (no upstream call is made), and the error text names the
first missing field in declaration order. -/
theorem validation_fails_fast (upstream : UpstreamCall → CallOutcome)
    (args : GithubToolArguments) :
    (∀ fld, firstMissing args getUserRequired = some fld →
      callTool upstream "get_user" args
        = (.protocolError .invalidParams "Username is required", [])
      ∧ ∃ p q, "Username is required" = p ++ displayName fld ++ q)
    ∧ (∀ fld, firstMissing args createRepoRequired = some fld →
      callTool upstream "create_repo" args
        = (.protocolError .invalidParams "Repository name is required", [])
      ∧ ∃ p q, "Repository name is required" = p ++ displayName fld ++ q)
    ∧ (∀ fld, firstMissing args pushToRepoRequired = some fld →
      callTool upstream "push_to_repo" args
        = (.protocolError .invalidParams
            "Repository name, file path, and content are required", [])
      ∧ ∃ p q, "Repository name, file path, and content are required"
          = p ++ displayName fld ++ q) := by
  refine ⟨?_, ?_, ?_⟩ <;> intro fld h
  · simp only [getUserRequired, firstMissing, fieldValue] at h
    split at h
    · obtain rfl : fld = "username" := (Option.some.inj h).symm
      rename_i hcond
      exact ⟨by simp [callTool, getUserHandler, hcond], "", " is required", by decide⟩
    · exact absurd h (by simp)
  · simp only [createRepoRequired, firstMissing, fieldValue] at h
    split at h
    · obtain rfl : fld = "repo_name" := (Option.some.inj h).symm
      rename_i hcond
      exact ⟨by simp [callTool, createRepoHandler, hcond], "", " is required", by decide⟩
    · exact absurd h (by simp)
  · simp only [pushToRepoRequired, firstMissing, fieldValue] at h
    split at h
    · obtain rfl : fld = "repo_name" := (Option.some.inj h).symm
      rename_i hcond
      exact ⟨by simp [callTool, pushToRepoHandler, hcond],
        "", ", file path, and content are required", by decide⟩
    · split at h
      · obtain rfl : fld = "file_path" := (Option.some.inj h).symm
        rename_i hcond
        exact ⟨by simp [callTool, pushToRepoHandler, hcond],
          "Repository name, ", ", and content are required", by decide⟩
      · split at h
        · obtain rfl : fld = "content" := (Option.some.inj h).symm
          rename_i hcond
          exact ⟨by simp [callTool, pushToRepoHandler, hcond],
            "Repository name, file path, and ", " are required", by decide⟩
        · exact absurd h (by simp)

/-- C3 witness: calling each tool with an entirely empty argument record
yields the protocol-level validation error and an empty upstream trace. -/
theorem validation_fails_fast_witness :
    callTool oracleAllNull "get_user" {}
      = (.protocolError .invalidParams "Username is required", [])
    ∧ callTool oracleAllNull "create_repo" {}
      = (.protocolError .invalidParams "Repository name is required", [])
    ∧ callTool oracleAllNull "push_to_repo" {}
      = (.protocolError .invalidParams
          "Repository name, file path, and content are required", []) :=
  ⟨((validation_fails_fast oracleAllNull {}).1 "username" rfl).1,
   ((validation_fails_fast oracleAllNull {}).2.1 "repo_name" rfl).1,
   ((validation_fails_fast oracleAllNull {}).2.2 "repo_name" rfl).1⟩

/-- C4: whenever a handler's upstream calls succeed, the returned value is a
normal envelope whose single content item is the pretty-printed JSON of the
raw upstream body, and whose isError flag reads false. -/
theorem success_envelope_shape (upstream : UpstreamCall → CallOutcome) :
    (∀ args u body, args.username = some u → u ≠ "" →
      upstream (getUserCall u) = .ok body →
      (callTool upstream "get_user" args).fst
        = .envelope ⟨[⟨"text", stringifyPretty body⟩], none⟩)
    ∧ (∀ args rn body, args.repo_name = some rn → rn ≠ "" →
      upstream (createRepoCall args) = .ok body →
      (callTool upstream "create_repo" args).fst
        = .envelope ⟨[⟨"text", stringifyPretty body⟩], none⟩)
    ∧ (∀ r f c msg userBody fileBody body, r ≠ "" → f ≠ "" → c ≠ "" →
      upstream userIdentityCall = .ok userBody →
      upstream (fileLookupCall (loginStr userBody) r f) = .ok fileBody →
      upstream (filePutCall (loginStr userBody) r f
        (pushPutBody msg c (fileBody.getField "sha"))) = .ok body →
      (callTool upstream "push_to_repo" (mkPushArgs r f c msg)).fst
        = .envelope ⟨[⟨"text", stringifyPretty body⟩], none⟩)
    ∧ (∀ body, (ResponseEnvelope.mk [⟨"text", stringifyPretty body⟩] none).isErrorFlag
        = false) := by
  refine ⟨?_, ?_, ?_, fun _ => rfl⟩
  · intro args u body hu hne hok
    simp [callTool, getUserHandler, jsFalsyStr, hu, hne, hok, outcomeOfCall, successEnvelope]
  · intro args rn body hrn hne hok
    simp [callTool, createRepoHandler, jsFalsyStr, hrn, hne, hok, outcomeOfCall,
      successEnvelope]
  · intro r f c msg userBody fileBody body hr hf hc h1 h2 h3
    simp [callTool, pushToRepoHandler, mkPushArgs, jsFalsyStr, hr, hf, hc, h1, h2, h3,
      shaOf, outcomeOfCall, successEnvelope]

/-- C4 witness: against an upstream whose every call succeeds with body
`null`, all three tools return the pretty-printed body with no error flag. -/
theorem success_envelope_shape_witness :
    (callTool oracleAllNull "get_user" { username := some "u" }).fst
      = .envelope ⟨[⟨"text", stringifyPretty Json.null⟩], none⟩
    ∧ (callTool oracleAllNull "create_repo" { repo_name := some "x" }).fst
      = .envelope ⟨[⟨"text", stringifyPretty Json.null⟩], none⟩
    ∧ (callTool oracleAllNull "push_to_repo" (mkPushArgs "r" "f" "c" none)).fst
      = .envelope ⟨[⟨"text", stringifyPretty Json.null⟩], none⟩ :=
  ⟨(success_envelope_shape oracleAllNull).1 { username := some "u" } "u" Json.null
      rfl (by decide) rfl,
   (success_envelope_shape oracleAllNull).2.1 { repo_name := some "x" } "x" Json.null
      rfl (by decide) rfl,
   (success_envelope_shape oracleAllNull).2.2.1 "r" "f" "c" none Json.null Json.null
      Json.null (by decide) (by decide) (by decide) rfl rfl rfl⟩

/-- C5: an upstream failure whose error body is `{"message": "Not Found"}`
yields the in-band envelope with isError true and exactly the text "GitHub
API error: Not Found"; when the error body carries no message field (or there
is no response body at all), the transport-level error text is used; and each
handler returns exactly this envelope when its upstream call fails as an
axios error. -/
theorem upstream_error_envelope (e : AxiosError) :
    (e.respData = some (.obj (.cons "message" (.str "Not Found") .nil)) →
      githubErrorEnvelope e
        = .envelope ⟨[⟨"text", "GitHub API error: Not Found"⟩], some true⟩)
    ∧ (∀ d, e.respData = some d → d.hasField "message" = false →
      githubErrorEnvelope e
        = .envelope ⟨[⟨"text", "GitHub API error: " ++ e.message⟩], some true⟩)
    ∧ (e.respData = none →
      githubErrorEnvelope e
        = .envelope ⟨[⟨"text", "GitHub API error: " ++ e.message⟩], some true⟩)
    ∧ (∀ upstream args u, args.username = some u → u ≠ "" →
      upstream (getUserCall u) = .axiosErr e →
      (callTool upstream "get_user" args).fst = githubErrorEnvelope e)
    ∧ (∀ upstream args rn, args.repo_name = some rn → rn ≠ "" →
      upstream (createRepoCall args) = .axiosErr e →
      (callTool upstream "create_repo" args).fst = githubErrorEnvelope e)
    ∧ (∀ upstream r f c msg, r ≠ "" → f ≠ "" → c ≠ "" →
      upstream userIdentityCall = .axiosErr e →
      (callTool upstream "push_to_repo" (mkPushArgs r f c msg)).fst
        = githubErrorEnvelope e) := by
  refine ⟨?_, ?_, ?_, ?_, ?_, ?_⟩
  · intro h
    simp [githubErrorEnvelope, axiosErrMessage, h, Json.getField, JsonFields.find,
      jsNullish, jsToString]
  · intro d hd hmsg
    cases d <;>
      simp_all [githubErrorEnvelope, axiosErrMessage, Json.getField, Json.hasField,
        jsNullish]
  · intro h
    simp [githubErrorEnvelope, axiosErrMessage, h, jsNullish]
  · intro upstream args u hu hne herr
    simp [callTool, getUserHandler, jsFalsyStr, hu, hne, herr, outcomeOfCall]
  · intro upstream args rn hrn hne herr
    simp [callTool, createRepoHandler, jsFalsyStr, hrn, hne, herr, outcomeOfCall]
  · intro upstream r f c msg hr hf hc herr
    simp [callTool, pushToRepoHandler, mkPushArgs, jsFalsyStr, hr, hf, hc, herr,
      outcomeOfCall]

/-- C5 witness: the concrete 404 error with body `{"message": "Not Found"}`
produces exactly the text "GitHub API error: Not Found" with isError true,
and get_user returns exactly that envelope when its GET so fails. -/
theorem upstream_error_envelope_witness :
    githubErrorEnvelope notFoundErr
      = .envelope ⟨[⟨"text", "GitHub API error: Not Found"⟩], some true⟩
    ∧ (callTool (fun _ => .axiosErr notFoundErr) "get_user" { username := some "u" }).fst
      = githubErrorEnvelope notFoundErr :=
  ⟨(upstream_error_envelope notFoundErr).1 rfl,
   (upstream_error_envelope notFoundErr).2.2.2.1 (fun _ => .axiosErr notFoundErr)
      { username := some "u" } "u" rfl (by decide) rfl⟩

/-- C6: for every push_to_repo invocation with valid arguments whose target
path holds an existing file with content hash "abc123", exactly three
upstream calls occur in order — identity GET, contents GET, PUT — and the
PUT body carries `sha: "abc123"`, both as constructed and as transmitted
after serialization. -/
theorem push_existing_file_update (upstream : UpstreamCall → CallOutcome)
    (r f c : String) (msg : Option String) (userBody fileBody : Json)
    (hr : r ≠ "") (hf : f ≠ "") (hc : c ≠ "")
    (h1 : upstream userIdentityCall = .ok userBody)
    (h2 : upstream (fileLookupCall (loginStr userBody) r f) = .ok fileBody)
    (hsha : fileBody.getField "sha" = .str "abc123") :
    (pushToRepoHandler upstream (mkPushArgs r f c msg)).snd
      = [userIdentityCall, fileLookupCall (loginStr userBody) r f,
         filePutCall (loginStr userBody) r f (pushPutBody msg c (.str "abc123"))]
    ∧ (pushPutBody msg c (.str "abc123")).getField "sha" = .str "abc123"
    ∧ (jsonXmit (pushPutBody msg c (.str "abc123"))).getField "sha" = .str "abc123" := by
  refine ⟨?_, ?_, ?_⟩
  · simp [pushToRepoHandler, mkPushArgs, jsFalsyStr, hr, hf, hc, h1, h2, shaOf, hsha]
  · simp [pushPutBody, Json.getField, JsonFields.find]
  · simp [pushPutBody, jsonXmit, jsonXmitFields, Json.getField, JsonFields.find]

/-- C6 witness: the theorem applied to the concrete oracle whose lookup
returns an existing file of hash "abc123". -/
theorem push_existing_file_update_witness :
    (pushToRepoHandler oracleFileExists (mkPushArgs "r" "f" "c" none)).snd
      = [userIdentityCall, fileLookupCall (loginStr userBodyMe) "r" "f",
         filePutCall (loginStr userBodyMe) "r" "f" (pushPutBody none "c" (.str "abc123"))]
    ∧ (pushPutBody none "c" (.str "abc123")).getField "sha" = .str "abc123"
    ∧ (jsonXmit (pushPutBody none "c" (.str "abc123"))).getField "sha" = .str "abc123" :=
  push_existing_file_update oracleFileExists "r" "f" "c" none userBodyMe fileBodyAbc
    (by decide) (by decide) (by decide) rfl rfl rfl

/-- C7: a create_repo invocation supplying only `repo_name="x"` performs a
single upstream call, the POST to /user/repos, whose body is exactly
`{name: "x", description: undefined, private: false}` — the private default
false applied in place of the absent argument. -/
theorem create_repo_default_private_body (upstream : UpstreamCall → CallOutcome) :
    createRepoBody { repo_name := some "x" }
      = .obj (.cons "name" (.str "x")
          (.cons "description" Json.undefined
          (.cons "private" (.bool false) .nil)))
    ∧ (callTool upstream "create_repo" { repo_name := some "x" }).snd
      = [⟨.post, "/user/repos", some (createRepoBody { repo_name := some "x" })⟩] :=
  ⟨rfl, rfl⟩

/-- C8: the content field of the push_to_repo PUT body is always the base64
encoding of the UTF-8 bytes of the supplied content string, and base64
decoding of that transmitted content yields exactly the original input bytes
(round-trip law). -/
theorem push_content_base64_roundtrip (msg : Option String) (content : String)
    (sha : Json) :
    (pushPutBody msg content sha).getField "content"
      = .str (base64Encode (utf8Bytes content))
    ∧ base64Decode (base64Encode (utf8Bytes content)) = some (utf8Bytes content) :=
  ⟨by simp [pushPutBody, Json.getField, JsonFields.find], base64_roundtrip content⟩

/-- C9: invoking any tool name outside the registry (anything other than
get_user, create_repo, push_to_repo) raises the terminal MethodNotFound
protocol error naming the tool, performs no upstream call, and never returns
a normal response envelope. -/
theorem unknown_tool_protocol_error (upstream : UpstreamCall → CallOutcome)
    (name : String) (args : GithubToolArguments)
    (h1 : name ≠ "get_user") (h2 : name ≠ "create_repo") (h3 : name ≠ "push_to_repo") :
    callTool upstream name args
      = (.protocolError .methodNotFound ("Unknown tool: " ++ name), [])
    ∧ ∀ env, (callTool upstream name args).fst ≠ HandlerOutcome.envelope env := by
  have hmain : callTool upstream name args
      = (.protocolError .methodNotFound ("Unknown tool: " ++ name), []) := by
    simp [callTool, h1, h2, h3]
  exact ⟨hmain, fun env => by simp [hmain]⟩

/-- C9 witness: the unknown name "frobnicate" is rejected with the
MethodNotFound protocol error and an empty upstream trace. -/
theorem unknown_tool_protocol_error_witness :
    callTool oracleAllNull "frobnicate" {}
      = (.protocolError .methodNotFound ("Unknown tool: " ++ "frobnicate"), []) :=
  (unknown_tool_protocol_error oracleAllNull "frobnicate" {}
    (by decide) (by decide) (by decide)).1

/-- C10: every read-resource request, whatever its URI, raises the
InvalidRequest protocol error naming the URI and never returns resource
content, while list-resources and list-resource-templates always return empty
collections. -/
theorem resource_handlers_reject_reads :
    (∀ uri, readResourceHandler uri
        = .protocolError .invalidRequest ("Invalid URI format: " ++ uri))
    ∧ listResourcesHandler = []
    ∧ listResourceTemplatesHandler = [] :=
  ⟨fun _ => rfl, rfl, rfl⟩

end GithubMcp
